import Mathlib

/-!
Shallow embedding of the bearer-token verification engine of the
Azure-Incubation repository (final version: `src/backend/auth.py`,
historical variant: `src/Module 02/backend/auth.py`).

External effects are modelled as explicit inputs:
* the JWT library's behaviour on a given token is captured by the fields
  `header` (result of `jwt.get_unverified_header`), `payload` (result of
  `jwt.decode(..., verify_signature := False)`) and `decode` (result of
  `jwt.decode` with a verification key and a validation strategy) of the
  environment `Env`;
* network attempts made by `get_public_keys` are an oracle
  `Nat → FetchOutcome` indexed by the global attempt number;
* the current time is an integer Unix timestamp `now` (fractional seconds
  are not modelled; no property below depends on the sub-second boundary).

Python truthiness is modelled explicitly: `None` and the empty string are
falsy for string-valued claims, `0` is falsy for the integer `exp` claim,
an empty dict is falsy for decoded claim mappings and JWKS documents.
-/

namespace AuthVerify

/-- Abstract RSA verification key obtained from `jwt.algorithms.RSAAlgorithm.from_jwk`;
only its identity matters, so it is modelled as an opaque string label. -/
def PubKey := String
deriving instance DecidableEq, Repr for PubKey

/-- One JWK entry of a JWKS document: `kid` as stored under the "kid" key
(absent modelled as `none`), and `pk` the result of converting the key
material with `RSAAlgorithm.from_jwk` (`none` models a conversion failure,
src/backend/auth.py lines 138-145). -/
structure Jwk where
  kid : Option String
  pk : Option PubKey
deriving DecidableEq, Repr

/-- The JSON document returned by a key-discovery endpoint.  `keys` is the
value of the "keys" field when present; `extra` records whether the dict has
any further keys (so that Python dict truthiness, used by
`if jwks: break` in src/backend/auth.py line 118, is representable). -/
structure Jwks where
  keys : Option (List Jwk)
  extra : Bool
deriving DecidableEq, Repr

/-- Python truthiness of the JWKS dict: a dict is truthy iff it has at least
one key. -/
def Jwks.truthy (j : Jwks) : Bool :=
  j.keys.isSome || j.extra

/-- Truthiness of the `jwks` variable in `verify_token` (which is `None` or a
dict). -/
def optJwksTruthy : Option Jwks → Bool
  | none => false
  | some j => j.truthy

/-- Token header as parsed by `jwt.get_unverified_header`: the "kid" and
"alg" fields, each possibly absent. -/
structure Header where
  kid : Option String
  alg : Option String
deriving DecidableEq, Repr

/-- Decoded token payload restricted to the fields `verify_token` reads.
Each field is `none` when the key is absent from the claims dict; `extra`
records whether the dict holds any further keys, so that Python dict
truthiness (`if decoded_token:` in src/backend/auth.py line 224) is
representable.  `exp` is an integer Unix timestamp (a non-numeric `exp`
would raise inside the handler and is not modelled; no claim depends on
it), and the string claims do not model non-string JSON values for the
same reason. -/
structure Claims where
  name : Option String
  preferred_username : Option String
  unique_name : Option String
  email : Option String
  upn : Option String
  sub : Option String
  exp : Option Int
  aud : Option String
  iss : Option String
  tid : Option String
  extra : Bool
deriving DecidableEq, Repr

/-- Python truthiness of the decoded claims dict: truthy iff it has at least
one key. -/
def Claims.truthy (c : Claims) : Bool :=
  c.name.isSome || c.preferred_username.isSome || c.unique_name.isSome ||
  c.email.isSome || c.upn.isSome || c.sub.isSome || c.exp.isSome ||
  c.aud.isSome || c.iss.isSome || c.tid.isSome || c.extra

/-- The claims dict with no keys at all. -/
def Claims.empty : Claims :=
  ⟨none, none, none, none, none, none, none, none, none, none, false⟩

/-- Python `a or b` for an optional string `a` (as produced by `.get`):
yields `b` when `a` is `None` or the empty string. -/
def pyOr (a : Option String) (b : String) : String :=
  match a with
  | some s => if s = "" then b else s
  | none => b

/-- The expression `str(sub[:8] if sub else 'unknown')` of
src/backend/auth.py line 242: the first 8 characters of `sub` when `sub`
is truthy (present and non-empty), else the literal "unknown". -/
def subSuffix : Option String → String
  | some s => if s = "" then "unknown" else s.take 8
  | none => "unknown"

/-- The `user` field of the identity dict (src/backend/auth.py lines 236-243):
`name or preferred_username or unique_name or email or upn or
"user_" + str(sub[:8] if sub else 'unknown')`. -/
def displayName (c : Claims) : String :=
  pyOr c.name (pyOr c.preferred_username (pyOr c.unique_name (pyOr c.email
    (pyOr c.upn ("user_" ++ subSuffix c.sub)))))

/-- The `email` field of the identity dict (src/backend/auth.py lines 244-249):
`email or preferred_username or upn or ''`. -/
def emailOf (c : Claims) : String :=
  pyOr c.email (pyOr c.preferred_username (pyOr c.upn ""))

/-- The dict returned by `verify_token`.  The demo-token dict has only the
`user`, `roles` and `email` keys, so the remaining fields are `Option`s
that are `none` there. -/
structure UserInfo where
  user : String
  email : String
  roles : List String
  sub : Option String
  aud : Option String
  iss : Option String
  tenant : Option String
  validated : Option String
deriving DecidableEq, Repr

/-- The fixed identity returned for the demo token
(src/backend/auth.py line 91). -/
def demoIdentity : UserInfo :=
  { user := "demo-user", email := "demo@example.com", roles := ["user"],
    sub := none, aud := none, iss := none, tenant := none, validated := none }

/-- Outcome of one `requests.get` attempt inside `get_public_keys`.
`ok` carries the parsed JSON body of a successful, parseable response;
`err` covers every caught exception kind (`Timeout`, `ConnectionError`,
`HTTPError`, any other `Exception`, including a non-dict JSON body that
makes `jwks_data.get` raise) — the handler treats all of them alike apart
from the log text, recorded here as `kind`. -/
inductive FetchOutcome where
  | ok (ks : Jwks)
  | err (kind : String)
deriving DecidableEq, Repr

/-- Whether a fetch attempt failed. -/
def FetchOutcome.isErr : FetchOutcome → Bool
  | .ok _ => false
  | .err _ => true

/-- Loop body of `get_public_keys` (src/backend/auth.py lines 54-76):
`f` gives the outcome of each successive network attempt, `base + i` is the
global index of the current attempt, `i` the 0-based attempt number of this
call, `remaining` how many attempts are left of `max_retries = 3`.  Returns
the function's return value together with the list of `time.sleep`
durations performed (`2 ** attempt`, executed only when
`attempt < max_retries - 1`). -/
def gpkAux (f : Nat → FetchOutcome) (base : Nat) : Nat → Nat → Option Jwks × List Nat
  | _, 0 => (none, [])
  | i, n + 1 =>
    match f (base + i) with
    | .ok ks => (some ks, [])
    | .err _ =>
      let p := gpkAux f base (i + 1) n
      (p.1, if n = 0 then p.2 else 2 ^ i :: p.2)

/-- The function `get_public_keys` of src/backend/auth.py (lines 47-79),
started at global attempt index `base`, paired with its backoff sleeps:
up to `max_retries = 3` attempts against the single configured JWKS URL,
returning the first successfully parsed body, and `None` after all
attempts failed. -/
def get_public_keys (f : Nat → FetchOutcome) (base : Nat) : Option Jwks × List Nat :=
  gpkAux f base 0 3

/-- The JWKS-fetch loop of `verify_token` (src/backend/auth.py lines
114-122): up to three calls of `get_public_keys` (global attempt indices
0-2, 3-5, 6-8), breaking on the first truthy result; the value of the
`jwks` variable after the loop is the last call's result when no call
returned a truthy dict. -/
def fetchJwksVar (f : Nat → FetchOutcome) : Option Jwks :=
  let g0 := (get_public_keys f 0).1
  if optJwksTruthy g0 then g0
  else
    let g1 := (get_public_keys f 3).1
    if optJwksTruthy g1 then g1
    else (get_public_keys f 6).1

/-- Key-selection loop of `verify_token` (src/backend/auth.py lines
135-145): first key whose "kid" equals the header's `kid` (Python `==`,
so two absent kids compare equal) and whose JWK-to-RSA conversion
succeeds; conversion failures continue with the next candidate. -/
def findKey (kid : Option String) : List Jwk → Option PubKey
  | [] => none
  | k :: rest =>
    if k.kid = kid then
      match k.pk with
      | some p => some p
      | none => findKey kid rest
    else findKey kid rest

/-- One validation strategy as passed to `jwt.decode`:
optional expected `audience` and `issuer`, and the `verify_aud` /
`verify_iss` options (both default `true`). -/
structure Strategy where
  algorithms : List String
  audience : Option String
  issuer : Option String
  verify_aud : Bool
  verify_iss : Bool
deriving DecidableEq, Repr

/-- The ordered strategy list of src/backend/auth.py lines 160-191,
built from the token's `alg` header and the configured client and
tenant ids. -/
def validation_strategies (alg clientId tenantId : String) : List Strategy :=
  [ { algorithms := [alg], audience := some clientId,
      issuer := some ("https://login.microsoftonline.com/" ++ tenantId ++ "/v2.0"),
      verify_aud := true, verify_iss := true },
    { algorithms := [alg], audience := some clientId,
      issuer := some "https://login.microsoftonline.com/common/v2.0",
      verify_aud := true, verify_iss := true },
    { algorithms := [alg], audience := none,
      issuer := some ("https://login.microsoftonline.com/" ++ tenantId ++ "/v2.0"),
      verify_aud := false, verify_iss := true },
    { algorithms := [alg], audience := some clientId, issuer := none,
      verify_aud := true, verify_iss := false },
    { algorithms := [alg], audience := none, issuer := none,
      verify_aud := false, verify_iss := false } ]

/-- Strategy loop of src/backend/auth.py lines 193-211: try each strategy
in order, keep the claims of the first `jwt.decode` call that does not
raise. -/
def tryStrategies (d : Strategy → Option Claims) : List Strategy → Option Claims
  | [] => none
  | s :: rest =>
    match d s with
    | some c => some c
    | none => tryStrategies d rest

/-- Exceptions that can escape the body of `verify_token` into its outer
handler: `HTTPException(status, detail)`, or the `NameError` raised when
the identity dict reads the local `public_key` on a path where it was never
assigned (src/backend/auth.py line 255 after the line-124 branch). -/
inductive PyExc where
  | http (status : Nat) (detail : String)
  | nameError
deriving DecidableEq, Repr

/-- HTTP error as surfaced by FastAPI. -/
structure HTTPError where
  status : Nat
  detail : String
deriving DecidableEq, Repr

/-- The message constant `TOKEN_EXPIRED_MSG` (src/backend/auth.py line 45). -/
def TOKEN_EXPIRED_MSG : String := "Token has expired"

/-- The `user_info` dict literal, src/backend/auth.py lines 236-256, as a
function of the decoded claims and the (bound) `public_key` value. -/
def identityOf (c : Claims) (pk : Option PubKey) : UserInfo :=
  { user := displayName c, email := emailOf c, roles := ["user"],
    sub := c.sub, aud := c.aud, iss := c.iss, tenant := c.tid,
    validated := some (if pk.isSome then "full" else "unverified") }

/-- Expiration check and identity construction, src/backend/auth.py lines
224-262 (`if decoded_token:` to the final `else`).  `pkVar` models the
local variable `public_key`: `none` when it was never assigned (the
line-124 degraded branch), `some none` when it was assigned but no key
matched, `some (some k)` when a key was found.  Reading an unassigned
local raises `NameError`. -/
def finalize (now : Int) (c : Claims) (pkVar : Option (Option PubKey)) :
    Except PyExc UserInfo :=
  if c.truthy then
    match c.exp with
    | some ex =>
      if ex ≠ 0 ∧ ex < now then .error (.http 401 TOKEN_EXPIRED_MSG)
      else mkIdentity c pkVar
    | none => mkIdentity c pkVar
  else .error (.http 401 "Invalid token")
where
  /-- Identity construction; reading the unassigned local raises `NameError`
  (the dict literal evaluates `public_key` at src/backend/auth.py line 255). -/
  mkIdentity (c : Claims) (pkVar : Option (Option PubKey)) : Except PyExc UserInfo :=
    match pkVar with
    | none => .error .nameError
    | some pk => .ok (identityOf c pk)

/-- Environment of one `verify_token` call: the presented token string, the
JWT library's behaviour on it, the network, the configured credentials and
the current time. -/
structure Env where
  token : String
  header : Option Header
  payload : Option Claims
  fetch : Nat → FetchOutcome
  decode : PubKey → Strategy → Option Claims
  clientId : String
  tenantId : String
  now : Int

/-- Body of `verify_token` (src/backend/auth.py lines 85-262), before the
outer exception handler.  The unverified preview decode of lines 97-101
only logs and swallows its own failure, so it has no effect on the result
and is not represented. -/
def verify_token_body (e : Env) : Except PyExc UserInfo :=
  if e.token = "demo-token" then .ok demoIdentity
  else
    match e.header with
    | none => .error (.http 401 "Invalid token format")
    | some h =>
      let kid := h.kid
      let alg := h.alg.getD "RS256"
      -- lines 124-132: `if not jwks:` — taken when the loop left `jwks`
      -- as None or as a falsy dict; `public_key` is never assigned here
      let degraded : Except PyExc UserInfo :=
        match e.payload with
        | none => .error (.http 500 "Authentication service unavailable")
        | some c => finalize e.now c none
      match fetchJwksVar e.fetch with
      | none => degraded
      | some jw =>
        if !jw.truthy then degraded
        else
        -- lines 133-221: a truthy JWKS document was obtained
        match findKey kid (jw.keys.getD []) with
        | none =>
          -- lines 147-156: no usable key; public_key is bound to None
          match e.payload with
          | none => .error (.http 401 "Invalid token signature")
          | some c => finalize e.now c (some none)
        | some key =>
          -- lines 158-221: strategies, then unverified fallback
          match tryStrategies (e.decode key) (validation_strategies alg e.clientId e.tenantId) with
          | some c => finalize e.now c (some (some key))
          | none =>
            match e.payload with
            | none => .error (.http 401 "Token validation failed")
            | some c => finalize e.now c (some (some key))

/-- The outer exception handler of `verify_token` (src/backend/auth.py
lines 264-268): re-raise `HTTPException`, turn any other exception into a
401 "Invalid authentication credentials". -/
def handleExc : Except PyExc UserInfo → Except HTTPError UserInfo
  | .ok u => .ok u
  | .error (.http s d) => .error ⟨s, d⟩
  | .error .nameError => .error ⟨401, "Invalid authentication credentials"⟩

/-- The function `verify_token` of src/backend/auth.py (lines 81-268): its
body wrapped in the outer handler. -/
def verify_token (e : Env) : Except HTTPError UserInfo :=
  handleExc (verify_token_body e)

/-- The function `get_public_keys` of the historical variant
`src/Module 02/backend/auth.py` (lines 41-58): two discovery endpoints
tried in order, a single request per endpoint (no retry, no backoff),
raising after both fail.  `a1` and `a2` give the outcome each endpoint
would produce on its successive attempts; the code only ever issues
attempt 0 of each. -/
def mod02_get_public_keys (a1 a2 : Nat → FetchOutcome) : Except String Jwks :=
  match a1 0 with
  | .ok ks => .ok ks
  | .err _ =>
    match a2 0 with
    | .ok ks => .ok ks
    | .err _ => .error "Failed to retrieve JWKS from all endpoints"

/-- Modelled from the spec: the claimed key-fetch contract for two
configured endpoints — iterate the endpoints in order, retry each up to
the retry limit (3) with exponential backoff before moving to the next,
succeed on the first parseable key set, and fail with
`KeyServiceUnavailable` only after all endpoints and all retries are
exhausted. -/
def fetchKeysClaim (a1 a2 : Nat → FetchOutcome) : Except String Jwks :=
  match (get_public_keys a1 0).1 with
  | some ks => .ok ks
  | none =>
    match (get_public_keys a2 0).1 with
    | some ks => .ok ks
    | none => .error "KeyServiceUnavailable"

/-- Modelled from the spec's words for C7: the first PRESENT value in a
field list (presence alone, regardless of emptiness) is what the claim
asserts the extraction uses. -/
def firstPresent (l : List (Option String)) : Option String :=
  (l.filterMap id).head?

/-- Modelled from the spec's words for C7: display name is the first
present value among `name`, `preferred_username`, `unique_name`, `email`,
`upn`, and otherwise the fixed literal followed by the first 8 characters
of `sub`. -/
def displayNameClaimed (c : Claims) : String :=
  (firstPresent [c.name, c.preferred_username, c.unique_name, c.email, c.upn]).getD
    ("user_" ++ (c.sub.getD "").take 8)

/-- Modelled from the spec's words for C7: email is the first present
value among `email`, `preferred_username`, `upn`, otherwise empty. -/
def emailClaimed (c : Claims) : String :=
  (firstPresent [c.email, c.preferred_username, c.upn]).getD ""

/-- First present value that is also non-empty (Python truthiness for
strings), used by the amended form of C7. -/
def firstNonEmpty (l : List (Option String)) : Option String :=
  (l.filterMap id).find? (fun s => decide (s ≠ ""))

/-- Amended display-name contract: first present non-empty value in the
fallback chain, else the fixed literal followed by the first 8 characters
of `sub` when `sub` is present and non-empty, else the literal suffix
"unknown". -/
def displayNameAmended (c : Claims) : String :=
  (firstNonEmpty [c.name, c.preferred_username, c.unique_name, c.email, c.upn]).getD
    ("user_" ++ ((firstNonEmpty [c.sub]).map (fun s => s.take 8)).getD "unknown")

/-- Amended email contract: first present non-empty value among `email`,
`preferred_username`, `upn`, else the empty string. -/
def emailAmended (c : Claims) : String :=
  (firstNonEmpty [c.email, c.preferred_username, c.upn]).getD ""

/-- Claims mapping `c` holds no expiry that the manual check of
src/backend/auth.py lines 225-231 would reject at time `now`
(`exp` absent, zero, or not strictly in the past). -/
def NotExpiredAt (now : Int) (c : Claims) : Prop :=
  ∀ ex, c.exp = some ex → ex = 0 ∨ ¬ ex < now

/-! Supporting lemmas. -/

theorem claims_truthy_of_exp {c : Claims} {ex : Int} (h : c.exp = some ex) :
    c.truthy = true := by
  simp [Claims.truthy, h]

theorem finalize_expired (now : Int) (c : Claims) (pkv : Option (Option PubKey))
    (ex : Int) (hex : c.exp = some ex) (hz : ex ≠ 0) (hlt : ex < now) :
    finalize now c pkv = .error (.http 401 TOKEN_EXPIRED_MSG) := by
  have ht := claims_truthy_of_exp hex
  simp [finalize, ht, hex, hz, hlt]

theorem finalize_ok (now : Int) (c : Claims) (pk : Option PubKey)
    (ht : c.truthy = true) (hne : NotExpiredAt now c) :
    finalize now c (some pk) = .ok (identityOf c pk) := by
  unfold finalize finalize.mkIdentity
  rw [if_pos ht]
  cases hex : c.exp with
  | none => rfl
  | some ex =>
    have hcond : ¬(ex ≠ 0 ∧ ex < now) := by
      rcases hne ex hex with h0 | hlt
      · exact fun hc => hc.1 h0
      · exact fun hc => hlt hc.2
    exact if_neg hcond

theorem finalize_none_is_error (now : Int) (c : Claims) :
    ∃ pe : PyExc, finalize now c none = .error pe := by
  unfold finalize finalize.mkIdentity
  split
  · split
    · split
      · exact ⟨_, rfl⟩
      · exact ⟨_, rfl⟩
    · exact ⟨_, rfl⟩
  · exact ⟨_, rfl⟩

theorem finalize_none_handle_401 (now : Int) (c : Claims) :
    ∃ det : String, handleExc (finalize now c none) = .error ⟨401, det⟩ := by
  unfold finalize finalize.mkIdentity
  split
  · split
    · split
      · exact ⟨_, rfl⟩
      · exact ⟨_, rfl⟩
    · exact ⟨_, rfl⟩
  · exact ⟨_, rfl⟩

theorem tryStrategies_some_mem {d : Strategy → Option Claims} {l : List Strategy}
    {c : Claims} (h : tryStrategies d l = some c) : ∃ s ∈ l, d s = some c := by
  induction l with
  | nil => simp [tryStrategies] at h
  | cons a rest ih =>
    unfold tryStrategies at h
    cases ha : d a with
    | some c' =>
      rw [ha] at h
      have hcc : some c' = some c := h
      exact ⟨a, List.mem_cons_self a rest, ha.trans hcc⟩
    | none =>
      rw [ha] at h
      have h' : tryStrategies d rest = some c := h
      obtain ⟨s, hs, hds⟩ := ih h'
      exact ⟨s, List.mem_cons_of_mem a hs, hds⟩

theorem tryStrategies_eq_some_iff (d : Strategy → Option Claims) (l : List Strategy)
    (c : Claims) :
    tryStrategies d l = some c ↔
      ∃ pre s post, l = pre ++ s :: post ∧ (∀ s' ∈ pre, d s' = none) ∧ d s = some c := by
  induction l with
  | nil =>
    simp only [tryStrategies]
    constructor
    · intro h; cases h
    · rintro ⟨pre, s, post, habs, -, -⟩
      exact absurd habs (by simp)
  | cons a rest ih =>
    unfold tryStrategies
    cases ha : d a with
    | some c' =>
      constructor
      · intro h
        have hcc : some c' = some c := h
        exact ⟨[], a, rest, rfl, by simp, ha.trans hcc⟩
      · rintro ⟨pre, s, post, hsplit, hpre, hds⟩
        cases pre with
        | nil =>
          simp only [List.nil_append, List.cons.injEq] at hsplit
          have hda : d a = some c := by rw [hsplit.1]; exact hds
          exact (ha.symm.trans hda : some c' = some c)
        | cons p pre' =>
          simp only [List.cons_append, List.cons.injEq] at hsplit
          have hnone : d a = none := by rw [hsplit.1]; exact hpre p (List.mem_cons_self p pre')
          rw [hnone] at ha
          cases ha
    | none =>
      have hstep : (match (none : Option Claims) with
          | some c => some c
          | none => tryStrategies d rest) = tryStrategies d rest := rfl
      rw [hstep, ih]
      constructor
      · rintro ⟨pre, s, post, hsplit, hpre, hds⟩
        refine ⟨a :: pre, s, post, by rw [hsplit, List.cons_append], ?_, hds⟩
        intro s' hs'
        rcases List.mem_cons.mp hs' with h1 | h2
        · rw [h1]; exact ha
        · exact hpre s' h2
      · rintro ⟨pre, s, post, hsplit, hpre, hds⟩
        cases pre with
        | nil =>
          simp only [List.nil_append, List.cons.injEq] at hsplit
          have hda : d a = some c := by rw [hsplit.1]; exact hds
          rw [hda] at ha
          cases ha
        | cons p pre' =>
          simp only [List.cons_append, List.cons.injEq] at hsplit
          exact ⟨pre', s, post, hsplit.2, fun s' hs' => hpre s' (by simp [hs']), hds⟩

theorem isErr_exists {o : FetchOutcome} (h : o.isErr = true) : ∃ k, o = .err k := by
  cases o with
  | ok ks => simp [FetchOutcome.isErr] at h
  | err k => exact ⟨k, rfl⟩

theorem get_public_keys_none (f : Nat → FetchOutcome) (base : Nat)
    (hf : ∀ j, j < 3 → (f (base + j)).isErr = true) :
    (get_public_keys f base).1 = none := by
  obtain ⟨k0, h0⟩ := isErr_exists (hf 0 (by omega))
  obtain ⟨k1, h1⟩ := isErr_exists (hf 1 (by omega))
  obtain ⟨k2, h2⟩ := isErr_exists (hf 2 (by omega))
  have h0' : f base = .err k0 := by simpa using h0
  simp [get_public_keys, gpkAux, h0', h1, h2]

theorem fetchJwksVar_none (f : Nat → FetchOutcome)
    (hf : ∀ i, i < 9 → (f i).isErr = true) :
    fetchJwksVar f = none := by
  have g0 : (get_public_keys f 0).1 = none :=
    get_public_keys_none f 0 (fun j hj => hf (0 + j) (by omega))
  have g3 : (get_public_keys f 3).1 = none :=
    get_public_keys_none f 3 (fun j hj => hf (3 + j) (by omega))
  have g6 : (get_public_keys f 6).1 = none :=
    get_public_keys_none f 6 (fun j hj => hf (6 + j) (by omega))
  simp [fetchJwksVar, g0, g3, g6, optJwksTruthy]

theorem verify_body_degraded (e : Env) (h : Header)
    (hd : e.token ≠ "demo-token") (hh : e.header = some h)
    (hj : fetchJwksVar e.fetch = none) :
    verify_token_body e =
      match e.payload with
      | none => .error (.http 500 "Authentication service unavailable")
      | some c => finalize e.now c none := by
  unfold verify_token_body
  rw [if_neg hd, hh, hj]

/-! Concrete inputs used by counterexamples and witnesses. -/

/-- A JWKS key whose `kid` is "k1" and whose material converts successfully. -/
def jwkK1 : Jwk := ⟨some "k1", some "PK1"⟩

/-- A JWKS document holding exactly `jwkK1`. -/
def jwksOne : Jwks := ⟨some [jwkK1], false⟩

/-- Decoded claims of a well-formed, unexpired token. -/
def claimsAlice : Claims :=
  { name := some "alice", preferred_username := none, unique_name := none,
    email := some "alice@example.com", upn := none, sub := some "subject-123",
    exp := some 1800000000, aud := some "client-1",
    iss := some "https://login.microsoftonline.com/t1/v2.0", tid := some "t1",
    extra := false }

/-- Base environment: token "tok" with header kid "k1", payload
`claimsAlice`, a key service that always answers with `jwksOne`, a JWT
library on which every strategy decode fails, called at time 1700000000. -/
def envBase : Env :=
  { token := "tok", header := some ⟨some "k1", some "RS256"⟩,
    payload := some claimsAlice, fetch := fun _ => .ok jwksOne,
    decode := fun _ _ => none, clientId := "client-1", tenantId := "t1",
    now := 1700000000 }

/-- Claims whose `exp` is the integer 0 — a timestamp strictly in the past
for any positive current time. -/
def claimsZero : Claims := { claimsAlice with exp := some 0 }

/-- Claims with no `exp` field at all. -/
def claimsNoExp : Claims := { claimsAlice with exp := none }

/-! Claim theorems. -/

/-- C1: the spec invariant says an identity is labeled
`validation_level = full` only when a validation strategy passed full
cryptographic signature verification.  The code violates it: in this
environment every strategy decode fails (`decode` is constantly `none`),
the line-217 unverified fallback supplies the claims, yet because the
local `public_key` is still bound to the matched key, line 255 labels the
returned identity "full".  The code even logs "Using unverified token -
signature verification failed" on this very path, contradicting the label
it then attaches. -/
theorem auth_C1_full_label_without_signature_pass :
    (∀ k s, envBase.decode k s = none) ∧
    verify_token envBase = .ok (identityOf claimsAlice (some "PK1")) ∧
    (identityOf claimsAlice (some "PK1")).validated = some "full" :=
  ⟨fun _ _ => rfl, rfl, rfl⟩

/-- C3: strategy evaluation over the configured ordered list is strictly
sequential and stops at the first success — the sequencer returns claims
`c` exactly when the strategy list splits into earlier strategies that all
fail, a first succeeding strategy that decodes to `c`, and untried later
strategies. -/
theorem auth_C3_sequential_first_success (alg clientId tenantId : String)
    (d : Strategy → Option Claims) (c : Claims) :
    tryStrategies d (validation_strategies alg clientId tenantId) = some c ↔
      ∃ pre s post, validation_strategies alg clientId tenantId = pre ++ s :: post ∧
        (∀ s' ∈ pre, d s' = none) ∧ d s = some c :=
  tryStrategies_eq_some_iff d (validation_strategies alg clientId tenantId) c

/-- C6: for the exact sentinel token "demo-token", `verify_token` returns
the fixed demo identity whatever the rest of the environment does —
in particular independently of the key service (`fetch`), of header
parsing (`header`), of key selection and of signature checks (`decode`),
since the result is the same for every value of those fields. -/
theorem auth_C6_demo_token_short_circuit (e : Env) (h : e.token = "demo-token") :
    verify_token e = .ok demoIdentity ∧
    demoIdentity.user = "demo-user" ∧
    demoIdentity.email = "demo@example.com" ∧
    demoIdentity.roles = ["user"] := by
  refine ⟨?_, rfl, rfl, rfl⟩
  unfold verify_token verify_token_body
  rw [if_pos h]
  rfl

/-- Environment for the C6 witness: the demo token with an unparseable
header, an undecodable payload, an unreachable key service and failing
signature checks — the demo identity is returned regardless. -/
def envDemo : Env :=
  { token := "demo-token", header := none, payload := none,
    fetch := fun _ => .err "down", decode := fun _ _ => none,
    clientId := "client-1", tenantId := "t1", now := 1700000000 }

/-- Witness for C6 at the concrete environment `envDemo`. -/
theorem auth_C6_witness : verify_token envDemo = .ok demoIdentity ∧
    demoIdentity.user = "demo-user" ∧
    demoIdentity.email = "demo@example.com" ∧
    demoIdentity.roles = ["user"] :=
  auth_C6_demo_token_short_circuit envDemo rfl

/-- Environment whose token has `exp = 0`: a timestamp strictly in the
past, presented with a `kid` that matches no fetched key. -/
def envC2x : Env :=
  { envBase with
    header := some ⟨some "nope", some "RS256"⟩,
    payload := some claimsZero }

/-- Counterexample to C2 as stated: this token's payload decodes to claims
whose `exp` (the integer 0) is strictly in the past at call time, yet
`verify_token` returns an identity instead of failing with `TokenExpired`
— the manual check `if exp:` treats the falsy value 0 as absent. -/
theorem auth_C2_counterexample :
    envC2x.payload = some claimsZero ∧ claimsZero.exp = some 0 ∧
    (0 : Int) < envC2x.now ∧
    verify_token envC2x = .ok (identityOf claimsZero none) :=
  ⟨rfl, rfl, by decide, rfl⟩

/-- C2 amended: for every token whose payload decodes to claims with a
NONZERO `exp` strictly in the past, `verify_token` fails with 401
`TOKEN_EXPIRED_MSG` on every path — degraded, unmatched-key and
strategy paths included.  The consistency hypothesis `hcons` states that
any claims produced by a verifying decode agree with the unverified
payload decode, which holds of a real JWT library since both decode the
same payload. -/
theorem auth_C2_nonzero_expired_rejected (e : Env) (c : Claims) (ex : Int)
    (hd : e.token ≠ "demo-token")
    (hh : ∃ h, e.header = some h)
    (hp : e.payload = some c)
    (hex : c.exp = some ex) (hz : ex ≠ 0) (hlt : ex < e.now)
    (hcons : ∀ k s c', e.decode k s = some c' → c' = c) :
    verify_token e = .error ⟨401, TOKEN_EXPIRED_MSG⟩ := by
  obtain ⟨h, hh⟩ := hh
  have hfin : ∀ pkv, finalize e.now c pkv = .error (.http 401 TOKEN_EXPIRED_MSG) :=
    fun pkv => finalize_expired e.now c pkv ex hex hz hlt
  unfold verify_token verify_token_body
  rw [if_neg hd, hh, hp]
  try dsimp only
  cases hfv : fetchJwksVar e.fetch with
  | none => exact (congrArg handleExc (hfin none)).trans rfl
  | some jw =>
    try dsimp only
    cases hjt : jw.truthy with
    | false => exact (congrArg handleExc (hfin none)).trans rfl
    | true =>
      try dsimp only [Bool.not_true]
      cases hfk : findKey h.kid (jw.keys.getD []) with
      | none => exact (congrArg handleExc (hfin (some none))).trans rfl
      | some key =>
        try dsimp only
        cases hts : tryStrategies (e.decode key)
            (validation_strategies (h.alg.getD "RS256") e.clientId e.tenantId) with
        | none => exact (congrArg handleExc (hfin (some (some key)))).trans rfl
        | some c' =>
          obtain ⟨s, -, hds⟩ := tryStrategies_some_mem hts
          have hcc := hcons key s c' hds
          subst hcc
          exact (congrArg handleExc (hfin (some (some key)))).trans rfl

/-- Claims of an unexpired token with a nonzero past `exp`. -/
def claimsPast : Claims := { claimsAlice with exp := some 1600000000 }

/-- Environment presenting a decodable token whose `exp` is a nonzero past
timestamp. -/
def envC2w : Env := { envBase with payload := some claimsPast }

/-- Witness for the amended C2 at the concrete environment `envC2w`. -/
theorem auth_C2_witness : verify_token envC2w = .error ⟨401, TOKEN_EXPIRED_MSG⟩ :=
  auth_C2_nonzero_expired_rejected envC2w claimsPast 1600000000 (by decide)
    ⟨_, rfl⟩ rfl rfl (by decide) (by decide) (fun _ _ _ h => nomatch h)

/-- Environment whose token header names a `kid` absent from the fetched
key set, while the payload remains decodable. -/
def envC4x : Env := { envBase with header := some ⟨some "nope", some "RS256"⟩ }

/-- Counterexample to C4 as stated: the header `kid` "nope" matches no key
in the fetched key set, yet `verify_token` returns a caller identity
(labeled "unverified") instead of failing with `KeyNotFound` — the
unverified-decode fallback of lines 150-156 is unconditional. -/
theorem auth_C4_counterexample :
    findKey (some "nope") ((jwksOne.keys).getD []) = none ∧
    verify_token envC4x = .ok (identityOf claimsAlice none) ∧
    (identityOf claimsAlice none).validated = some "unverified" :=
  ⟨rfl, rfl, rfl⟩

/-- C4 amended: when the header `kid` matches no key of the fetched
(truthy) key set, `verify_token` fails with 401 "Invalid token signature"
only when the fallback unverified decode of the payload also fails;
when the payload is decodable (non-empty, not expired), it instead
returns an identity labeled "unverified". -/
theorem auth_C4_unmatched_kid_fallback (e : Env) (h : Header) (jw : Jwks)
    (hd : e.token ≠ "demo-token") (hh : e.header = some h)
    (hfv : fetchJwksVar e.fetch = some jw) (hjt : jw.truthy = true)
    (hk : findKey h.kid (jw.keys.getD []) = none) :
    (e.payload = none → verify_token e = .error ⟨401, "Invalid token signature"⟩) ∧
    (∀ c, e.payload = some c → c.truthy = true → NotExpiredAt e.now c →
      verify_token e = .ok (identityOf c none)) := by
  constructor
  · intro hp
    unfold verify_token verify_token_body
    rw [if_neg hd, hh, hp]
    try dsimp only
    rw [hfv]
    try dsimp only
    rw [hjt]
    try dsimp only [Bool.not_true]
    rw [hk]
    rfl
  · intro c hp ht hne
    have hfin := finalize_ok e.now c none ht hne
    unfold verify_token verify_token_body
    rw [if_neg hd, hh, hp]
    try dsimp only
    rw [hfv]
    try dsimp only
    rw [hjt]
    try dsimp only [Bool.not_true]
    rw [hk]
    exact (congrArg handleExc hfin).trans rfl

/-- Environment with an unmatched `kid` and an undecodable payload. -/
def envC4w : Env :=
  { envBase with header := some ⟨some "nope", some "RS256"⟩, payload := none }

/-- Witness for the amended C4 at the concrete environment `envC4w`. -/
theorem auth_C4_witness : verify_token envC4w = .error ⟨401, "Invalid token signature"⟩ :=
  (auth_C4_unmatched_kid_fallback envC4w ⟨some "nope", some "RS256"⟩ jwksOne
    (by decide) rfl rfl rfl rfl).1 rfl

/-- Environment in which every network attempt to the key service fails,
while the token payload remains decodable. -/
def envC5x : Env := { envBase with fetch := fun _ => .err "connection error" }

/-- Counterexample to C5 as stated: every key-discovery attempt fails, yet
`verify_token` does not fail with `KeyServiceUnavailable` (500): it
silently attempts the unverified decode, then dies on the unassigned
`public_key` local, surfaced as a generic 401. -/
theorem auth_C5_counterexample :
    (∀ i, (envC5x.fetch i).isErr = true) ∧
    verify_token envC5x = .error ⟨401, "Invalid authentication credentials"⟩ :=
  ⟨fun _ => rfl, rfl⟩

/-- C5 amended: when every key-fetch attempt fails, no signature
verification is attempted (the result is invariant under any change of
the decode oracle), the 500 `KeyServiceUnavailable` answer is produced
exactly when the payload is undecodable, and no caller identity is ever
returned. -/
theorem auth_C5_key_service_exhausted (e : Env) (h : Header)
    (hd : e.token ≠ "demo-token") (hh : e.header = some h)
    (hf : ∀ i, i < 9 → (e.fetch i).isErr = true) :
    (∀ d2, verify_token { e with decode := d2 } = verify_token e) ∧
    (e.payload = none → verify_token e = .error ⟨500, "Authentication service unavailable"⟩) ∧
    (∀ u, verify_token e ≠ .ok u) := by
  have hj : fetchJwksVar e.fetch = none := fetchJwksVar_none e.fetch hf
  have hb := verify_body_degraded e h hd hh hj
  refine ⟨?_, ?_, ?_⟩
  · intro d2
    have hb2 := verify_body_degraded { e with decode := d2 } h hd hh hj
    unfold verify_token
    rw [hb, hb2]
  · intro hp
    unfold verify_token
    rw [hb, hp]
    rfl
  · intro u
    unfold verify_token
    rw [hb]
    cases hp : e.payload with
    | none => intro hcontra; cases hcontra
    | some c =>
      obtain ⟨det, hdet⟩ := finalize_none_handle_401 e.now c
      intro hcontra
      have hcontra' : handleExc (finalize e.now c none) = .ok u := hcontra
      rw [hdet] at hcontra'
      cases hcontra'

/-- Environment with failing key service and undecodable payload. -/
def envC5w : Env := { envC5x with payload := none }

/-- Witness for the amended C5 at the concrete environment `envC5w`. -/
theorem auth_C5_witness :
    verify_token envC5w = .error ⟨500, "Authentication service unavailable"⟩ :=
  (auth_C5_key_service_exhausted envC5w ⟨some "k1", some "RS256"⟩ (by decide) rfl
    (fun _ _ => rfl)).2.1 rfl

/-- Claims mapping containing `name := some ""` (present but empty) and an
`email`. -/
def claimsEmptyName : Claims := { Claims.empty with name := some "", email := some "x@y" }

/-- Counterexample to C7 as stated: the claim says the display name is the
first PRESENT value in the fallback chain; here `name` is present (the
empty string), so the claimed chain yields "", but the code's Python `or`
chain skips falsy values and yields the `email` value instead. -/
theorem auth_C7_counterexample :
    claimsEmptyName.name = some "" ∧
    displayNameClaimed claimsEmptyName = "" ∧
    displayName claimsEmptyName = "x@y" :=
  ⟨rfl, rfl, rfl⟩

theorem firstNonEmpty_cons_getD (a : Option String) (l : List (Option String)) (dflt : String) :
    (firstNonEmpty (a :: l)).getD dflt = pyOr a ((firstNonEmpty l).getD dflt) := by
  cases a with
  | none => simp [firstNonEmpty, pyOr]
  | some s =>
    by_cases hs : s = ""
    · subst hs; simp [firstNonEmpty, pyOr]
    · simp [firstNonEmpty, pyOr, hs]

/-- C7 amended: the identity's display name is the first present
NON-EMPTY value among `name`, `preferred_username`, `unique_name`,
`email`, `upn` (Python `or` skips present-but-empty values), and
otherwise "user_" followed by the first 8 characters of `sub` when `sub`
is present and non-empty, else by the literal "unknown"; email is the
first present non-empty value among `email`, `preferred_username`, `upn`,
else the empty string. -/
theorem auth_C7_truthy_fallback_chain (c : Claims) :
    displayName c = displayNameAmended c ∧ emailOf c = emailAmended c := by
  constructor
  · unfold displayName displayNameAmended
    rw [firstNonEmpty_cons_getD, firstNonEmpty_cons_getD, firstNonEmpty_cons_getD,
        firstNonEmpty_cons_getD, firstNonEmpty_cons_getD]
    have hbase : (firstNonEmpty []).getD
        ("user_" ++ ((firstNonEmpty [c.sub]).map (fun s => s.take 8)).getD "unknown")
        = "user_" ++ subSuffix c.sub := by
      cases hsub : c.sub with
      | none => rfl
      | some s =>
        by_cases hs : s = ""
        · subst hs; rfl
        · simp [firstNonEmpty, subSuffix, hs]
    rw [hbase]
  · unfold emailOf emailAmended
    rw [firstNonEmpty_cons_getD, firstNonEmpty_cons_getD, firstNonEmpty_cons_getD]
    rfl

/-- First endpoint that fails once and would succeed on a retry. -/
def a1C8 : Nat → FetchOutcome := fun n => if n = 0 then .err "transient" else .ok jwksOne

/-- Second endpoint that is down on every attempt. -/
def a2C8 : Nat → FetchOutcome := fun _ => .err "down"

/-- Counterexample to C8 as stated: under the claimed contract (iterate
endpoints in order, retrying each up to the retry limit with backoff
before moving on) this fetch succeeds, because the first endpoint
recovers on its second attempt; the Module 02 implementation instead
attempts each endpoint exactly once and fails. -/
theorem auth_C8_counterexample :
    fetchKeysClaim a1C8 a2C8 = .ok jwksOne ∧
    mod02_get_public_keys a1C8 a2C8 = .error "Failed to retrieve JWKS from all endpoints" :=
  ⟨rfl, rfl⟩

/-- C8 amended: the final `get_public_keys` (src/backend/auth.py) queries
its single configured endpoint up to 3 times, returns the first parseable
body, sleeps 2^0 and 2^1 seconds after the first and second failed
attempts (exponential backoff, no sleep after the last), and returns
`None` — not a raised `KeyServiceUnavailable` — after exhaustion; the
Module 02 variant iterates its two endpoints in order but issues exactly
one attempt per endpoint, with no retry and no backoff, raising only
after both endpoints failed once. -/
theorem auth_C8_fetch_contracts :
    (∀ f base ks, f base = .ok ks → get_public_keys f base = (some ks, [])) ∧
    (∀ f base ks, (f base).isErr = true → f (base + 1) = .ok ks →
      get_public_keys f base = (some ks, [1])) ∧
    (∀ f base ks, (f base).isErr = true → (f (base + 1)).isErr = true →
      f (base + 2) = .ok ks → get_public_keys f base = (some ks, [1, 2])) ∧
    (∀ f base, (f base).isErr = true → (f (base + 1)).isErr = true →
      (f (base + 2)).isErr = true → get_public_keys f base = (none, [1, 2])) ∧
    (∀ a1 a2 ks, a1 0 = .ok ks → mod02_get_public_keys a1 a2 = .ok ks) ∧
    (∀ a1 a2 ks, (a1 0).isErr = true → a2 0 = .ok ks →
      mod02_get_public_keys a1 a2 = .ok ks) ∧
    (∀ a1 a2, (a1 0).isErr = true → (a2 0).isErr = true →
      mod02_get_public_keys a1 a2 = .error "Failed to retrieve JWKS from all endpoints") := by
  refine ⟨?_, ?_, ?_, ?_, ?_, ?_, ?_⟩
  · intro f base ks h0
    simp [get_public_keys, gpkAux, h0]
  · intro f base ks h0 h1
    obtain ⟨k0, hk0⟩ := isErr_exists h0
    simp [get_public_keys, gpkAux, hk0, h1]
  · intro f base ks h0 h1 h2
    obtain ⟨k0, hk0⟩ := isErr_exists h0
    obtain ⟨k1, hk1⟩ := isErr_exists h1
    simp [get_public_keys, gpkAux, hk0, hk1, h2]
  · intro f base h0 h1 h2
    obtain ⟨k0, hk0⟩ := isErr_exists h0
    obtain ⟨k1, hk1⟩ := isErr_exists h1
    obtain ⟨k2, hk2⟩ := isErr_exists h2
    simp [get_public_keys, gpkAux, hk0, hk1, hk2]
  · intro a1 a2 ks h0
    simp [mod02_get_public_keys, h0]
  · intro a1 a2 ks h0 h1
    obtain ⟨k0, hk0⟩ := isErr_exists h0
    simp [mod02_get_public_keys, hk0, h1]
  · intro a1 a2 h0 h1
    obtain ⟨k0, hk0⟩ := isErr_exists h0
    obtain ⟨k1, hk1⟩ := isErr_exists h1
    simp [mod02_get_public_keys, hk0, hk1]

/-- Witness for the amended C8: the backend fetch retries after one failure
(sleeping 2^0 seconds) and the Module 02 fetch succeeds on its second
endpoint after the first fails. -/
theorem auth_C8_witness :
    get_public_keys a1C8 0 = (some jwksOne, [1]) ∧
    mod02_get_public_keys a2C8 (fun _ => .ok jwksOne) = .ok jwksOne :=
  ⟨auth_C8_fetch_contracts.2.1 a1C8 0 jwksOne rfl rfl,
   auth_C8_fetch_contracts.2.2.2.2.2.1 a2C8 (fun _ => .ok jwksOne) jwksOne rfl rfl⟩

/-- Environment in which every key-fetch attempt times out while the token
payload remains decodable. -/
def envC9w : Env := { envBase with fetch := fun _ => .err "timeout" }

/-- C9: when the key-set fetch yields nothing on all attempts, a non-demo
token never produces a caller identity: the call fails with 500 exactly
when the payload is undecodable, and otherwise with some 401 — on the
surviving paths the identity construction reads the never-assigned
`public_key` local and the resulting `NameError` is converted to a 401 by
the catch-all handler (or the expiry/emptiness checks reject with their
own 401 first). -/
theorem auth_C9_no_keys_never_identity (e : Env) (h : Header)
    (hd : e.token ≠ "demo-token") (hh : e.header = some h)
    (hf : ∀ i, i < 9 → (e.fetch i).isErr = true) :
    (e.payload = none → verify_token e = .error ⟨500, "Authentication service unavailable"⟩) ∧
    (∀ c, e.payload = some c → ∃ det, verify_token e = .error ⟨401, det⟩) ∧
    (∀ u, verify_token e ≠ .ok u) := by
  have hj : fetchJwksVar e.fetch = none := fetchJwksVar_none e.fetch hf
  have hb := verify_body_degraded e h hd hh hj
  refine ⟨?_, ?_, ?_⟩
  · intro hp
    unfold verify_token
    rw [hb, hp]
    rfl
  · intro c hp
    obtain ⟨det, hdet⟩ := finalize_none_handle_401 e.now c
    refine ⟨det, ?_⟩
    unfold verify_token
    rw [hb, hp]
    exact hdet
  · intro u
    unfold verify_token
    rw [hb]
    cases hp : e.payload with
    | none => intro hcontra; cases hcontra
    | some c =>
      obtain ⟨det, hdet⟩ := finalize_none_handle_401 e.now c
      intro hcontra
      have hcontra2 : handleExc (finalize e.now c none) = .ok u := hcontra
      rw [hdet] at hcontra2
      cases hcontra2

/-- Witness for C9 at the concrete environment `envC9w`: the decodable
payload continuation surfaces a 401. -/
theorem auth_C9_witness : ∃ det, verify_token envC9w = .error ⟨401, det⟩ :=
  (auth_C9_no_keys_never_identity envC9w ⟨some "k1", some "RS256"⟩ (by decide) rfl
    (fun _ _ => rfl)).2.1 claimsAlice rfl

/-- Environment whose token decodes (under the first strategy) to an
entirely empty claims mapping. -/
def envC10x : Env := { envBase with decode := fun _ _ => some Claims.empty }

/-- Counterexample to C10 as stated: a decoded token whose claims contain
no `exp` is not always carried to identity extraction — the empty claims
dict is falsy, so `if decoded_token:` routes it to the 401 "Invalid
token" rejection instead. -/
theorem auth_C10_counterexample :
    Claims.empty.exp = none ∧
    verify_token envC10x = .error ⟨401, "Invalid token"⟩ :=
  ⟨rfl, rfl⟩

/-- C10 amended: claims without an `exp` field are never rejected as
expired, and whenever the claims mapping is non-empty (truthy) and the
`public_key` local is bound, evaluation proceeds to identity extraction
and returns the extracted identity. -/
theorem auth_C10_absent_exp_skips_expiry (now : Int) (c : Claims)
    (pkv : Option (Option PubKey)) (hexp : c.exp = none) :
    finalize now c pkv ≠ .error (.http 401 TOKEN_EXPIRED_MSG) ∧
    (c.truthy = true → ∀ pk, pkv = some pk →
      finalize now c pkv = .ok (identityOf c pk)) := by
  constructor
  · unfold finalize finalize.mkIdentity
    cases ht : c.truthy with
    | false =>
      rw [if_neg Bool.false_ne_true]
      intro hcontra
      have : "Invalid token" = TOKEN_EXPIRED_MSG := by
        injection hcontra with h1
        injection h1
      exact absurd this (by decide)
    | true =>
      rw [if_pos rfl, hexp]
      cases pkv with
      | none => intro hcontra; cases hcontra
      | some pk => intro hcontra; cases hcontra
  · intro ht pk hpk
    subst hpk
    exact finalize_ok now c pk ht (fun ex hex => by rw [hexp] at hex; cases hex)

/-- Witness for the amended C10 at concrete claims without `exp`. -/
theorem auth_C10_witness :
    finalize 1700000000 claimsNoExp (some (some "PK1")) =
      .ok (identityOf claimsNoExp (some "PK1")) :=
  (auth_C10_absent_exp_skips_expiry 1700000000 claimsNoExp (some (some "PK1"))
    rfl).2 rfl (some "PK1") rfl

end AuthVerify
